import Mathlib

/-!
Shallow embedding of the PREVENT risk engine from `src/lib/prevent-equations.ts`.

Modelling conventions:
* JavaScript numbers at the interface are modelled as exact rationals (`ℚ`);
  every concrete value appearing in the program and its branch conditions is
  rational, and all comparisons are order comparisons, so the exact-arithmetic
  reading over `ℚ` is faithful.
* The logistic-regression formulas produce real values (`ℝ`), since the full
  model takes a natural logarithm (`Math.log`) and the final transform uses
  `Math.exp`; these are modelled by `Real.log` / `Real.exp` in exact real
  arithmetic.
* Optional fields (`tc?`, `hdl?`, `bmi?`, `statin?`, `uacr?`, `hba1c?`, `sdi?`)
  become `Option ℚ`; `undefined` is `none`.
* The JavaScript idiom `x || d` (used as `tc || 0`, `bmi || 25`, `statin || 0`)
  is `jsOr`: it substitutes the default both for `undefined` and for the value
  `0`, which is falsy in JavaScript.
* The statement `if (cond) { field = null; }` applied to an already-computed
  field is `nullIf cond field`.
-/

namespace Prevent

/-- Conversion of SDI decile (1-10) to tertile (0,1,2); `sdicat` in the source. -/
noncomputable def sdicat (sdi : ℝ) : ℝ :=
  if 1 ≤ sdi ∧ sdi < 4 then 0
  else if 4 ≤ sdi ∧ sdi < 7 then 1
  else if 7 ≤ sdi ∧ sdi ≤ 10 then 2
  else 0

/-- Conversion of cholesterol from mg/dL to mmol/L; `mmol_conversion` in the source. -/
noncomputable def mmol_conversion (cholesterol : ℝ) : ℝ :=
  0.02586 * cholesterol

/-- Adjustment of UACR values: any `0 <= uacr < 0.1` becomes `0.1`; `adjust` in the source. -/
noncomputable def adjust (uacr : ℝ) : ℝ :=
  if uacr ≥ 0.1 then uacr
  else if uacr ≥ 0 ∧ uacr < 0.1 then 0.1
  else uacr

/-- Model tags of the `PreventResults` interface; the type admits five tags even
though only `base` and `full` are ever produced. -/
inductive ModelTag
  | base
  | uacr
  | hba1c
  | sdi
  | full
deriving DecidableEq, Repr

/-- Result record `PreventResults` of the source: six nullable percentages and a model tag. -/
structure PreventResults where
  prevent_10yr_CVD : Option ℝ
  prevent_30yr_CVD : Option ℝ
  prevent_10yr_ASCVD : Option ℝ
  prevent_30yr_ASCVD : Option ℝ
  prevent_10yr_HF : Option ℝ
  prevent_30yr_HF : Option ℝ
  model : ModelTag

/-- Input record `PreventInputs` of the source. -/
structure PreventInputs where
  sex : ℚ
  age : ℚ
  tc : Option ℚ
  hdl : Option ℚ
  sbp : ℚ
  dm : ℚ
  smoking : ℚ
  bmi : Option ℚ
  egfr : ℚ
  bptreat : ℚ
  statin : Option ℚ
  uacr : Option ℚ
  hba1c : Option ℚ
  sdi : Option ℚ

/-- JavaScript `x || d` on an optional number: the default replaces both
`undefined` and the falsy value `0`. -/
def jsOr (o : Option ℚ) (d : ℚ) : ℚ :=
  match o with
  | none => d
  | some x => if x = 0 then d else x

/-- Condition of the source check `sex !== 0 && sex !== 1`. -/
def sexInvalid (sex : ℚ) : Prop := sex ≠ 0 ∧ sex ≠ 1

instance (sex : ℚ) : Decidable (sexInvalid sex) :=
  inferInstanceAs (Decidable (sex ≠ 0 ∧ sex ≠ 1))

/-- Condition of the source check `age < 30 || age > 79`. -/
def ageInvalid (age : ℚ) : Prop := age < 30 ∨ age > 79

instance (age : ℚ) : Decidable (ageInvalid age) :=
  inferInstanceAs (Decidable (age < 30 ∨ age > 79))

/-- Condition of the source check `!tc || tc < 130 || tc > 320`; `!tc` holds
when `tc` is `undefined` or `0`, which is `tc.getD 0 = 0` here. -/
def tcInvalid (tc : Option ℚ) : Prop :=
  tc.getD 0 = 0 ∨ tc.getD 0 < 130 ∨ tc.getD 0 > 320

instance (tc : Option ℚ) : Decidable (tcInvalid tc) :=
  inferInstanceAs (Decidable (tc.getD 0 = 0 ∨ tc.getD 0 < 130 ∨ tc.getD 0 > 320))

/-- Condition of the source check `!hdl || hdl < 20 || hdl > 100`. -/
def hdlInvalid (hdl : Option ℚ) : Prop :=
  hdl.getD 0 = 0 ∨ hdl.getD 0 < 20 ∨ hdl.getD 0 > 100

instance (hdl : Option ℚ) : Decidable (hdlInvalid hdl) :=
  inferInstanceAs (Decidable (hdl.getD 0 = 0 ∨ hdl.getD 0 < 20 ∨ hdl.getD 0 > 100))

/-- Condition of the source check `sbp < 90 || sbp > 200`. -/
def sbpInvalid (sbp : ℚ) : Prop := sbp < 90 ∨ sbp > 200

instance (sbp : ℚ) : Decidable (sbpInvalid sbp) :=
  inferInstanceAs (Decidable (sbp < 90 ∨ sbp > 200))

/-- Condition of the source check `egfr <= 0`. -/
def egfrInvalid (egfr : ℚ) : Prop := egfr ≤ 0

instance (egfr : ℚ) : Decidable (egfrInvalid egfr) :=
  inferInstanceAs (Decidable (egfr ≤ 0))

/-- Condition of the source check `statin === undefined`. -/
def statinMissing (st : Option ℚ) : Prop := st = none

instance (st : Option ℚ) : Decidable (statinMissing st) :=
  inferInstanceAs (Decidable (st = none))

/-- Condition of the source check `!bmi || bmi < 18.5 || bmi >= 40`. -/
def bmiInvalid (bmi : Option ℚ) : Prop :=
  bmi.getD 0 = 0 ∨ bmi.getD 0 < 18.5 ∨ bmi.getD 0 ≥ 40

instance (bmi : Option ℚ) : Decidable (bmiInvalid bmi) :=
  inferInstanceAs (Decidable (bmi.getD 0 = 0 ∨ bmi.getD 0 < 18.5 ∨ bmi.getD 0 ≥ 40))

/-- Condition of the source check `uacr !== undefined && uacr < 0`. -/
def uacrInvalid (uacr : Option ℚ) : Prop := uacr.isSome ∧ uacr.getD 0 < 0

instance (uacr : Option ℚ) : Decidable (uacrInvalid uacr) :=
  inferInstanceAs (Decidable (uacr.isSome = true ∧ uacr.getD 0 < 0))

/-- Condition of the source check `hba1c !== undefined && hba1c <= 0`. -/
def hba1cInvalid (h : Option ℚ) : Prop := h.isSome ∧ h.getD 0 ≤ 0

instance (h : Option ℚ) : Decidable (hba1cInvalid h) :=
  inferInstanceAs (Decidable (h.isSome = true ∧ h.getD 0 ≤ 0))

/-- Condition of the source check `sdi !== undefined && (sdi < 1 || sdi > 10)`. -/
def sdiInvalid (s : Option ℚ) : Prop := s.isSome ∧ (s.getD 0 < 1 ∨ s.getD 0 > 10)

instance (s : Option ℚ) : Decidable (sdiInvalid s) :=
  inferInstanceAs (Decidable (s.isSome = true ∧ (s.getD 0 < 1 ∨ s.getD 0 > 10)))

/-- Embedding of the source idiom `if (cond) { field = null; }` applied to an
already-computed optional field. -/
def nullIf (c : Prop) [Decidable c] (o : Option ℝ) : Option ℝ :=
  if c then none else o

/-- Condition of the source check
`params.uacr !== undefined || params.hba1c !== undefined || params.sdi !== undefined`. -/
def hasOptionalVars (p : PreventInputs) : Prop :=
  p.uacr ≠ none ∨ p.hba1c ≠ none ∨ p.sdi ≠ none

instance (p : PreventInputs) : Decidable (hasOptionalVars p) :=
  inferInstanceAs (Decidable (p.uacr ≠ none ∨ p.hba1c ≠ none ∨ p.sdi ≠ none))

/-- Final transform of each formula: `100 * Math.exp(x) / (1 + Math.exp(x))`. -/
noncomputable def pct (x : ℝ) : ℝ :=
  100 * Real.exp x / (1 + Real.exp x)

/-- Helper `getSdiTerm` of `preventFull`: contribution of the SDI variable, a
fixed constant when SDI is absent. -/
noncomputable def getSdiTerm (sdi : Option ℚ) (coef1 coef2 missingCoef : ℝ) : ℝ :=
  match sdi with
  | some s =>
      coef1 * (2 - sdicat s) * sdicat s + coef2 * (sdicat s - 1) * (0.5 * sdicat s)
  | none => missingCoef

/-- Helper `getUacrTerm` of `preventFull`: contribution of the UACR variable, a
fixed constant when UACR is absent. -/
noncomputable def getUacrTerm (uacr : Option ℚ) (coef missingCoef : ℝ) : ℝ :=
  match uacr with
  | some u => coef * Real.log (adjust u)
  | none => missingCoef

/-- Helper `getHba1cTerm` of `preventFull`: contribution of the HbA1c variable,
with separate coefficients by diabetes status, a fixed constant when absent. -/
noncomputable def getHba1cTerm (hba1c : Option ℚ) (dm : ℝ)
    (coefDm coefNoDm missingCoef : ℝ) : ℝ :=
  match hba1c with
  | some h => coefDm * (h - 5.3) * dm + coefNoDm * (h - 5.3) * (1 - dm)
  | none => missingCoef

/-! Base-model log-odds formulas.  Arguments are the already-defaulted numeric
values (`tc`, `hdl`, `statin` after `|| 0`, `bmi` after `|| 25`); the heart
failure formulas take no cholesterol-panel arguments at all, exactly as in the
source. -/

/-- Log-odds formula for 10-year CVD, female, base model. -/
noncomputable def logor_10yr_CVD_female_base
    (age tc hdl sbp dm smoking egfr bptreat statin : ℝ) : ℝ :=
  -3.307728 +
    0.7939329 * (age - 55) / 10 +
    0.0305239 * (mmol_conversion (tc - hdl) - 3.5) -
    0.1606857 * (mmol_conversion hdl - 1.3) / 0.3 -
    0.2394003 * (min sbp 110 - 110) / 20 +
    0.360078 * (max sbp 110 - 130) / 20 +
    0.8667604 * dm +
    0.5360739 * smoking +
    0.6045917 * (min egfr 60 - 60) / (-15) +
    0.0433769 * (max egfr 60 - 90) / (-15) +
    0.3151672 * bptreat -
    0.1477655 * statin -
    0.0663612 * bptreat * (max sbp 110 - 130) / 20 +
    0.1197879 * statin * (mmol_conversion (tc - hdl) - 3.5) -
    0.0819715 * (age - 55) / 10 * (mmol_conversion (tc - hdl) - 3.5) +
    0.0306769 * (age - 55) / 10 * (mmol_conversion hdl - 1.3) / 0.3 -
    0.0946348 * (age - 55) / 10 * (max sbp 110 - 130) / 20 -
    0.27057 * (age - 55) / 10 * dm -
    0.078715 * (age - 55) / 10 * smoking -
    0.1637806 * (age - 55) / 10 * (min egfr 60 - 60) / (-15)

/-- Log-odds formula for 30-year CVD, female, base model. -/
noncomputable def logor_30yr_CVD_female_base
    (age tc hdl sbp dm smoking egfr bptreat statin : ℝ) : ℝ :=
  -1.318827 +
    0.5503079 * (age - 55) / 10 -
    0.0928369 * ((age - 55) / 10) ^ 2 +
    0.0409794 * (mmol_conversion (tc - hdl) - 3.5) +
    (-0.1663306) * (mmol_conversion hdl - 1.3) / 0.3 +
    (-0.1628654) * (min sbp 110 - 110) / 20 +
    0.3299505 * (max sbp 110 - 130) / 20 +
    0.6793894 * dm +
    0.3196112 * smoking +
    0.1857101 * (min egfr 60 - 60) / (-15) +
    0.0553528 * (max egfr 60 - 90) / (-15) +
    0.2894 * bptreat +
    (-0.075688) * statin +
    (-0.056367) * bptreat * (max sbp 110 - 130) / 20 +
    0.1071019 * statin * (mmol_conversion (tc - hdl) - 3.5) +
    (-0.0751438) * (age - 55) / 10 * (mmol_conversion (tc - hdl) - 3.5) +
    0.0301786 * (age - 55) / 10 * (mmol_conversion hdl - 1.3) / 0.3 +
    (-0.0998776) * (age - 55) / 10 * (max sbp 110 - 130) / 20 +
    (-0.3206166) * (age - 55) / 10 * dm +
    (-0.1607862) * (age - 55) / 10 * smoking +
    (-0.1450788) * (age - 55) / 10 * (min egfr 60 - 60) / (-15)

/-- Log-odds formula for 10-year ASCVD, female, base model. -/
noncomputable def logor_10yr_ASCVD_female_base
    (age tc hdl sbp dm smoking egfr bptreat statin : ℝ) : ℝ :=
  -3.819975 +
    0.719883 * (age - 55) / 10 +
    0.1176967 * (mmol_conversion tc - mmol_conversion hdl - 3.5) -
    0.151185 * (mmol_conversion hdl - 1.3) / 0.3 -
    0.0835358 * (min sbp 110 - 110) / 20 +
    0.3592852 * (max sbp 110 - 130) / 20 +
    0.8348585 * dm +
    0.4831078 * smoking +
    0.4864619 * (min egfr 60 - 60) / (-15) +
    0.0397779 * (max egfr 60 - 90) / (-15) +
    0.2265309 * bptreat -
    0.0592374 * statin -
    0.0395762 * bptreat * (max sbp 110 - 130) / 20 +
    0.0844423 * statin * (mmol_conversion tc - mmol_conversion hdl - 3.5) -
    0.0567839 * (age - 55) / 10 * (mmol_conversion tc - mmol_conversion hdl - 3.5) +
    0.0325692 * (age - 55) / 10 * (mmol_conversion hdl - 1.3) / 0.3 -
    0.1035985 * (age - 55) / 10 * (max sbp 110 - 130) / 20 -
    0.2417542 * (age - 55) / 10 * dm -
    0.0791142 * (age - 55) / 10 * smoking -
    0.1671492 * (age - 55) / 10 * (min egfr 60 - 60) / (-15)

/-- Log-odds formula for 30-year ASCVD, female, base model. -/
noncomputable def logor_30yr_ASCVD_female_base
    (age tc hdl sbp dm smoking egfr bptreat statin : ℝ) : ℝ :=
  -1.974074 +
    0.4669202 * (age - 55) / 10 -
    0.0893118 * ((age - 55) / 10) ^ 2 +
    0.1256901 * (mmol_conversion tc - mmol_conversion hdl - 3.5) -
    0.1542255 * (mmol_conversion hdl - 1.3) / 0.3 -
    0.0018093 * (min sbp 110 - 110) / 20 +
    0.322949 * (max sbp 110 - 130) / 20 +
    0.6296707 * dm +
    0.268292 * smoking +
    0.100106 * (min egfr 60 - 60) / (-15) +
    0.0499663 * (max egfr 60 - 90) / (-15) +
    0.1875292 * bptreat +
    0.0152476 * statin -
    0.0276123 * bptreat * (max sbp 110 - 130) / 20 +
    0.0736147 * statin * (mmol_conversion tc - mmol_conversion hdl - 3.5) -
    0.0521962 * (age - 55) / 10 * (mmol_conversion tc - mmol_conversion hdl - 3.5) +
    0.0316918 * (age - 55) / 10 * (mmol_conversion hdl - 1.3) / 0.3 -
    0.1046101 * (age - 55) / 10 * (max sbp 110 - 130) / 20 -
    0.2727793 * (age - 55) / 10 * dm -
    0.1530907 * (age - 55) / 10 * smoking -
    0.1299149 * (age - 55) / 10 * (min egfr 60 - 60) / (-15)

/-- Log-odds formula for 10-year HF, female, base model. -/
noncomputable def logor_10yr_HF_female_base
    (age sbp dm smoking bmi egfr bptreat : ℝ) : ℝ :=
  -4.310409 +
    0.8998235 * (age - 55) / 10 -
    0.4559771 * (min sbp 110 - 110) / 20 +
    0.3576505 * (max sbp 110 - 130) / 20 +
    1.038346 * dm +
    0.583916 * smoking -
    0.0072294 * (min bmi 30 - 25) / 5 +
    0.2997706 * (max bmi 30 - 30) / 5 +
    0.7451638 * (min egfr 60 - 60) / (-15) +
    0.0557087 * (max egfr 60 - 90) / (-15) +
    0.3534442 * bptreat -
    0.0981511 * bptreat * (max sbp 110 - 130) / 20 -
    0.0946663 * (age - 55) / 10 * (max sbp 110 - 130) / 20 -
    0.3581041 * (age - 55) / 10 * dm -
    0.1159453 * (age - 55) / 10 * smoking -
    0.003878 * (age - 55) / 10 * (max bmi 30 - 30) / 5 -
    0.1884289 * (age - 55) / 10 * (min egfr 60 - 60) / (-15)

/-- Log-odds formula for 30-year HF, female, base model. -/
noncomputable def logor_30yr_HF_female_base
    (age sbp dm smoking bmi egfr bptreat : ℝ) : ℝ :=
  -2.205379 +
    0.6254374 * (age - 55) / 10 -
    0.0983038 * ((age - 55) / 10) ^ 2 -
    0.3919241 * (min sbp 110 - 110) / 20 +
    0.3142295 * (max sbp 110 - 130) / 20 +
    0.8330787 * dm +
    0.3438651 * smoking +
    0.0594874 * (min bmi 30 - 25) / 5 +
    0.2525536 * (max bmi 30 - 30) / 5 +
    0.2981642 * (min egfr 60 - 60) / (-15) +
    0.0667159 * (max egfr 60 - 90) / (-15) +
    0.333921 * bptreat -
    0.0893177 * bptreat * (max sbp 110 - 130) / 20 -
    0.0974299 * (age - 55) / 10 * (max sbp 110 - 130) / 20 -
    0.404855 * (age - 55) / 10 * dm -
    0.1982991 * (age - 55) / 10 * smoking -
    0.0035619 * (age - 55) / 10 * (max bmi 30 - 30) / 5 -
    0.1564215 * (age - 55) / 10 * (min egfr 60 - 60) / (-15)

/-- Log-odds formula for 10-year CVD, male, base model. -/
noncomputable def logor_10yr_CVD_male_base
    (age tc hdl sbp dm smoking egfr bptreat statin : ℝ) : ℝ :=
  -3.031168 +
    0.7688528 * (age - 55) / 10 +
    0.0736174 * (mmol_conversion (tc - hdl) - 3.5) -
    0.0954431 * (mmol_conversion hdl - 1.3) / 0.3 -
    0.4347345 * (min sbp 110 - 110) / 20 +
    0.3362658 * (max sbp 110 - 130) / 20 +
    0.7692857 * dm +
    0.4386871 * smoking +
    0.5378979 * (min egfr 60 - 60) / (-15) +
    0.0164827 * (max egfr 60 - 90) / (-15) +
    0.288879 * bptreat -
    0.1337349 * statin -
    0.0475924 * bptreat * (max sbp 110 - 130) / 20 +
    0.150273 * statin * (mmol_conversion (tc - hdl) - 3.5) -
    0.0517874 * (age - 55) / 10 * (mmol_conversion (tc - hdl) - 3.5) +
    0.0191169 * (age - 55) / 10 * (mmol_conversion hdl - 1.3) / 0.3 -
    0.1049477 * (age - 55) / 10 * (max sbp 110 - 130) / 20 -
    0.2251948 * (age - 55) / 10 * dm -
    0.0895067 * (age - 55) / 10 * smoking -
    0.1543702 * (age - 55) / 10 * (min egfr 60 - 60) / (-15)

/-- Log-odds formula for 30-year CVD, male, base model. -/
noncomputable def logor_30yr_CVD_male_base
    (age tc hdl sbp dm smoking egfr bptreat statin : ℝ) : ℝ :=
  -1.148204 +
    0.4627309 * (age - 55) / 10 -
    0.0984281 * ((age - 55) / 10) ^ 2 +
    0.0836088 * (mmol_conversion (tc - hdl) - 3.5) +
    (-0.1029824) * (mmol_conversion hdl - 1.3) / 0.3 +
    (-0.2140352) * (min sbp 110 - 110) / 20 +
    0.2904325 * (max sbp 110 - 130) / 20 +
    0.5331276 * dm +
    0.2141914 * smoking +
    0.1155556 * (min egfr 60 - 60) / (-15) +
    0.0603775 * (max egfr 60 - 90) / (-15) +
    0.232714 * bptreat +
    (-0.0272112) * statin +
    (-0.0384488) * bptreat * (max sbp 110 - 130) / 20 +
    0.134192 * statin * (mmol_conversion (tc - hdl) - 3.5) +
    (-0.0511759) * (age - 55) / 10 * (mmol_conversion (tc - hdl) - 3.5) +
    0.0165865 * (age - 55) / 10 * (mmol_conversion hdl - 1.3) / 0.3 +
    (-0.1101437) * (age - 55) / 10 * (max sbp 110 - 130) / 20 +
    (-0.2585943) * (age - 55) / 10 * dm +
    (-0.1566406) * (age - 55) / 10 * smoking +
    (-0.1166776) * (age - 55) / 10 * (min egfr 60 - 60) / (-15)

/-- Log-odds formula for 10-year ASCVD, male, base model. -/
noncomputable def logor_10yr_ASCVD_male_base
    (age tc hdl sbp dm smoking egfr bptreat statin : ℝ) : ℝ :=
  -3.500655 +
    0.7099847 * (age - 55) / 10 +
    0.1658663 * (mmol_conversion tc - mmol_conversion hdl - 3.5) -
    0.1144285 * (mmol_conversion hdl - 1.3) / 0.3 -
    0.2837212 * (min sbp 110 - 110) / 20 +
    0.3239977 * (max sbp 110 - 130) / 20 +
    0.7189597 * dm +
    0.3956973 * smoking +
    0.3690075 * (min egfr 60 - 60) / (-15) +
    0.0203619 * (max egfr 60 - 90) / (-15) +
    0.2036522 * bptreat -
    0.0865581 * statin -
    0.0322916 * bptreat * (max sbp 110 - 130) / 20 +
    0.114563 * statin * (mmol_conversion tc - mmol_conversion hdl - 3.5) -
    0.0300005 * (age - 55) / 10 * (mmol_conversion tc - mmol_conversion hdl - 3.5) +
    0.0232747 * (age - 55) / 10 * (mmol_conversion hdl - 1.3) / 0.3 -
    0.0927024 * (age - 55) / 10 * (max sbp 110 - 130) / 20 -
    0.2018525 * (age - 55) / 10 * dm -
    0.0970527 * (age - 55) / 10 * smoking -
    0.1217081 * (age - 55) / 10 * (min egfr 60 - 60) / (-15)

/-- Log-odds formula for 30-year ASCVD, male, base model. -/
noncomputable def logor_30yr_ASCVD_male_base
    (age tc hdl sbp dm smoking egfr bptreat statin : ℝ) : ℝ :=
  -1.736444 +
    0.3994099 * (age - 55) / 10 -
    0.0937484 * ((age - 55) / 10) ^ 2 +
    0.1744643 * (mmol_conversion tc - mmol_conversion hdl - 3.5) -
    0.120203 * (mmol_conversion hdl - 1.3) / 0.3 -
    0.0665117 * (min sbp 110 - 110) / 20 +
    0.2753037 * (max sbp 110 - 130) / 20 +
    0.4790257 * dm +
    0.1782635 * smoking -
    0.0218789 * (min egfr 60 - 60) / (-15) +
    0.0602553 * (max egfr 60 - 90) / (-15) +
    0.1421182 * bptreat +
    0.0135996 * statin -
    0.0218265 * bptreat * (max sbp 110 - 130) / 20 +
    0.1013148 * statin * (mmol_conversion tc - mmol_conversion hdl - 3.5) -
    0.0312619 * (age - 55) / 10 * (mmol_conversion tc - mmol_conversion hdl - 3.5) +
    0.020673 * (age - 55) / 10 * (mmol_conversion hdl - 1.3) / 0.3 -
    0.0920935 * (age - 55) / 10 * (max sbp 110 - 130) / 20 -
    0.2159947 * (age - 55) / 10 * dm -
    0.1548811 * (age - 55) / 10 * smoking -
    0.0712547 * (age - 55) / 10 * (min egfr 60 - 60) / (-15)

/-- Log-odds formula for 10-year HF, male, base model. -/
noncomputable def logor_10yr_HF_male_base
    (age sbp dm smoking bmi egfr bptreat : ℝ) : ℝ :=
  -3.946391 +
    0.8972642 * (age - 55) / 10 -
    0.6811466 * (min sbp 110 - 110) / 20 +
    0.3634461 * (max sbp 110 - 130) / 20 +
    0.923776 * dm +
    0.5023736 * smoking -
    0.0485841 * (min bmi 30 - 25) / 5 +
    0.3726929 * (max bmi 30 - 30) / 5 +
    0.6926917 * (min egfr 60 - 60) / (-15) +
    0.0251827 * (max egfr 60 - 90) / (-15) +
    0.2980922 * bptreat -
    0.0497731 * bptreat * (max sbp 110 - 130) / 20 -
    0.1289201 * (age - 55) / 10 * (max sbp 110 - 130) / 20 -
    0.3040924 * (age - 55) / 10 * dm -
    0.1401688 * (age - 55) / 10 * smoking +
    0.0068126 * (age - 55) / 10 * (max bmi 30 - 30) / 5 -
    0.1797778 * (age - 55) / 10 * (min egfr 60 - 60) / (-15)

/-- Log-odds formula for 30-year HF, male, base model. -/
noncomputable def logor_30yr_HF_male_base
    (age sbp dm smoking bmi egfr bptreat : ℝ) : ℝ :=
  -1.95751 +
    0.5681541 * (age - 55) / 10 -
    0.1048388 * ((age - 55) / 10) ^ 2 -
    0.4761564 * (min sbp 110 - 110) / 20 +
    0.30324 * (max sbp 110 - 130) / 20 +
    0.6840338 * dm +
    0.2656273 * smoking +
    0.0833107 * (min bmi 30 - 25) / 5 +
    0.26999 * (max bmi 30 - 30) / 5 +
    0.2541805 * (min egfr 60 - 60) / (-15) +
    0.0638923 * (max egfr 60 - 90) / (-15) +
    0.2583631 * bptreat -
    0.0391938 * bptreat * (max sbp 110 - 130) / 20 -
    0.1269124 * (age - 55) / 10 * (max sbp 110 - 130) / 20 -
    0.3273572 * (age - 55) / 10 * dm -
    0.2043019 * (age - 55) / 10 * smoking -
    0.0182831 * (age - 55) / 10 * (max bmi 30 - 30) / 5 -
    0.1342618 * (age - 55) / 10 * (min egfr 60 - 60) / (-15)

/-! Full-model log-odds formulas.  In addition to the defaulted numeric
arguments they take the three optional variables (`uacr`, `hba1c`, `sdi`) as
options, feeding the three conditional-term helpers. -/

/-- Log-odds formula for 10-year CVD, female, full model. -/
noncomputable def logor_10yr_CVD_female_full
    (age tc hdl sbp dm smoking egfr bptreat statin : ℝ)
    (uacr hba1c sdi : Option ℚ) : ℝ :=
  -3.860385 +
    0.7716794 * (age - 55) / 10 +
    0.0062109 * (mmol_conversion (tc - hdl) - 3.5) -
    0.1547756 * (mmol_conversion hdl - 1.3) / 0.3 -
    0.1933123 * (min sbp 110 - 110) / 20 +
    0.3071217 * (max sbp 110 - 130) / 20 +
    0.496753 * dm +
    0.466605 * smoking +
    0.4780697 * (min egfr 60 - 60) / (-15) +
    0.0529077 * (max egfr 60 - 90) / (-15) +
    0.3034892 * bptreat -
    0.1556524 * statin -
    0.0667026 * bptreat * (max sbp 110 - 130) / 20 +
    0.1061825 * statin * (mmol_conversion (tc - hdl) - 3.5) -
    0.0742271 * (age - 55) / 10 * (mmol_conversion (tc - hdl) - 3.5) +
    0.0288245 * (age - 55) / 10 * (mmol_conversion hdl - 1.3) / 0.3 -
    0.0875188 * (age - 55) / 10 * (max sbp 110 - 130) / 20 -
    0.2267102 * (age - 55) / 10 * dm -
    0.0676125 * (age - 55) / 10 * smoking -
    0.1493231 * (age - 55) / 10 * (min egfr 60 - 60) / (-15) +
    getSdiTerm sdi 0.1361989 0.2261596 0.1804508 +
    getUacrTerm uacr 0.1645922 0.0198413 +
    getHba1cTerm hba1c dm 0.1298513 0.1412555 (-0.0031658)

/-- Log-odds formula for 10-year ASCVD, female, full model. -/
noncomputable def logor_10yr_ASCVD_female_full
    (age tc hdl sbp dm smoking egfr bptreat statin : ℝ)
    (uacr hba1c sdi : Option ℚ) : ℝ :=
  -4.291503 +
    0.7023067 * (age - 55) / 10 +
    0.0898765 * (mmol_conversion tc - mmol_conversion hdl - 3.5) -
    0.1407316 * (mmol_conversion hdl - 1.3) / 0.3 -
    0.0256648 * (min sbp 110 - 110) / 20 +
    0.314511 * (max sbp 110 - 130) / 20 +
    0.4799217 * dm +
    0.4062049 * smoking +
    0.3847744 * (min egfr 60 - 60) / (-15) +
    0.0495174 * (max egfr 60 - 90) / (-15) +
    0.2133861 * bptreat -
    0.0678552 * statin -
    0.0451416 * bptreat * (max sbp 110 - 130) / 20 +
    0.0788187 * statin * (mmol_conversion tc - mmol_conversion hdl - 3.5) -
    0.0535985 * (age - 55) / 10 * (mmol_conversion tc - mmol_conversion hdl - 3.5) +
    0.0291762 * (age - 55) / 10 * (mmol_conversion hdl - 1.3) / 0.3 -
    0.0961839 * (age - 55) / 10 * (max sbp 110 - 130) / 20 -
    0.2001466 * (age - 55) / 10 * dm -
    0.0586472 * (age - 55) / 10 * smoking -
    0.1537791 * (age - 55) / 10 * (min egfr 60 - 60) / (-15) +
    getSdiTerm sdi 0.1413965 0.228136 0.1588908 +
    getUacrTerm uacr 0.1371824 0.0061613 +
    getHba1cTerm hba1c dm 0.123192 0.1410572 0.005866

/-- Log-odds formula for 10-year HF, female, full model. -/
noncomputable def logor_10yr_HF_female_full
    (age sbp dm smoking bmi egfr bptreat : ℝ)
    (uacr hba1c sdi : Option ℚ) : ℝ :=
  -4.896524 +
    0.884209 * (age - 55) / 10 -
    0.421474 * (min sbp 110 - 110) / 20 +
    0.3002919 * (max sbp 110 - 130) / 20 +
    0.6170359 * dm +
    0.5380269 * smoking -
    0.0191335 * (min bmi 30 - 25) / 5 +
    0.2764302 * (max bmi 30 - 30) / 5 +
    0.5975847 * (min egfr 60 - 60) / (-15) +
    0.0654197 * (max egfr 60 - 90) / (-15) +
    0.3313614 * bptreat -
    0.1002304 * bptreat * (max sbp 110 - 130) / 20 -
    0.0845363 * (age - 55) / 10 * (max sbp 110 - 130) / 20 -
    0.2989062 * (age - 55) / 10 * dm -
    0.1111354 * (age - 55) / 10 * smoking +
    0.0008104 * (age - 55) / 10 * (max bmi 30 - 30) / 5 -
    0.1666635 * (age - 55) / 10 * (min egfr 60 - 60) / (-15) +
    getSdiTerm sdi 0.1213034 0.2314147 0.1819138 +
    getUacrTerm uacr 0.1948135 0.0395368 +
    getHba1cTerm hba1c dm 0.176668 0.1614911 (-0.0010583)

/-- Log-odds formula for 30-year CVD, female, full model. -/
noncomputable def logor_30yr_CVD_female_full
    (age tc hdl sbp dm smoking egfr bptreat statin : ℝ)
    (uacr hba1c sdi : Option ℚ) : ℝ :=
  -1.748475 +
    0.5073749 * (age - 55) / 10 -
    0.0981751 * ((age - 55) / 10) ^ 2 +
    0.0162303 * (mmol_conversion (tc - hdl) - 3.5) -
    0.1617147 * (mmol_conversion hdl - 1.3) / 0.3 -
    0.1111241 * (min sbp 110 - 110) / 20 +
    0.282946 * (max sbp 110 - 130) / 20 +
    0.4004069 * dm +
    0.2918701 * smoking +
    0.1017102 * (min egfr 60 - 60) / (-15) +
    0.0622643 * (max egfr 60 - 90) / (-15) +
    0.2872416 * bptreat -
    0.0768135 * statin -
    0.0557282 * bptreat * (max sbp 110 - 130) / 20 +
    0.0917585 * statin * (mmol_conversion (tc - hdl) - 3.5) -
    0.0679131 * (age - 55) / 10 * (mmol_conversion (tc - hdl) - 3.5) +
    0.029076 * (age - 55) / 10 * (mmol_conversion hdl - 1.3) / 0.3 -
    0.0907755 * (age - 55) / 10 * (max sbp 110 - 130) / 20 -
    0.2702118 * (age - 55) / 10 * dm -
    0.1373216 * (age - 55) / 10 * smoking -
    0.1255864 * (age - 55) / 10 * (min egfr 60 - 60) / (-15) +
    getSdiTerm sdi 0.1067741 0.1853138 0.1567115 +
    getUacrTerm uacr 0.1028065 (-0.0006181) +
    getHba1cTerm hba1c dm 0.0925285 0.0975598 0.0101713

/-- Log-odds formula for 30-year ASCVD, female, full model. -/
noncomputable def logor_30yr_ASCVD_female_full
    (age tc hdl sbp dm smoking egfr bptreat statin : ℝ)
    (uacr hba1c sdi : Option ℚ) : ℝ :=
  -2.314066 +
    0.4386739 * (age - 55) / 10 -
    0.0921956 * ((age - 55) / 10) ^ 2 +
    0.0977728 * (mmol_conversion tc - mmol_conversion hdl - 3.5) -
    0.1453525 * (mmol_conversion hdl - 1.3) / 0.3 +
    0.0590925 * (min sbp 110 - 110) / 20 +
    0.2862862 * (max sbp 110 - 130) / 20 +
    0.3669136 * dm +
    0.2354695 * smoking +
    0.0354338 * (min egfr 60 - 60) / (-15) +
    0.0573093 * (max egfr 60 - 90) / (-15) +
    0.1840085 * bptreat +
    0.0117504 * statin -
    0.0331945 * bptreat * (max sbp 110 - 130) / 20 +
    0.0664311 * statin * (mmol_conversion tc - mmol_conversion hdl - 3.5) -
    0.0492826 * (age - 55) / 10 * (mmol_conversion tc - mmol_conversion hdl - 3.5) +
    0.0288888 * (age - 55) / 10 * (mmol_conversion hdl - 1.3) / 0.3 -
    0.0964709 * (age - 55) / 10 * (max sbp 110 - 130) / 20 -
    0.2279648 * (age - 55) / 10 * dm -
    0.120405 * (age - 55) / 10 * smoking -
    0.1157635 * (age - 55) / 10 * (min egfr 60 - 60) / (-15) +
    getSdiTerm sdi 0.1107632 0.1840367 0.1308962 +
    getUacrTerm uacr 0.0810739 (-0.0147785) +
    getHba1cTerm hba1c dm 0.0794709 0.1002615 0.017301

/-- Log-odds formula for 30-year HF, female, full model. -/
noncomputable def logor_30yr_HF_female_full
    (age sbp dm smoking bmi egfr bptreat : ℝ)
    (uacr hba1c sdi : Option ℚ) : ℝ :=
  -2.642208 +
    0.5927507 * (age - 55) / 10 -
    0.1028754 * ((age - 55) / 10) ^ 2 -
    0.3593781 * (min sbp 110 - 110) / 20 +
    0.2628556 * (max sbp 110 - 130) / 20 +
    0.5113472 * dm +
    0.347344 * smoking +
    0.0564656 * (min bmi 30 - 25) / 5 +
    0.2363857 * (max bmi 30 - 30) / 5 +
    0.1971295 * (min egfr 60 - 60) / (-15) +
    0.0735227 * (max egfr 60 - 90) / (-15) +
    0.3219386 * bptreat -
    0.0880321 * bptreat * (max sbp 110 - 130) / 20 -
    0.0863132 * (age - 55) / 10 * (max sbp 110 - 130) / 20 -
    0.3425359 * (age - 55) / 10 * dm -
    0.181405 * (age - 55) / 10 * smoking +
    0.0031285 * (age - 55) / 10 * (max bmi 30 - 30) / 5 -
    0.1356989 * (age - 55) / 10 * (min egfr 60 - 60) / (-15) +
    getSdiTerm sdi 0.0847634 0.18397 0.1485802 +
    getUacrTerm uacr 0.1273306 0.0167008 +
    getHba1cTerm hba1c dm 0.1378342 0.1138832 0.0138979

/-- Log-odds formula for 10-year CVD, male, full model. -/
noncomputable def logor_10yr_CVD_male_full
    (age tc hdl sbp dm smoking egfr bptreat statin : ℝ)
    (uacr hba1c sdi : Option ℚ) : ℝ :=
  -3.631387 +
    0.7847578 * (age - 55) / 10 +
    0.0534485 * (mmol_conversion (tc - hdl) - 3.5) -
    0.0911282 * (mmol_conversion hdl - 1.3) / 0.3 -
    0.4921973 * (min sbp 110 - 110) / 20 +
    0.2972415 * (max sbp 110 - 130) / 20 +
    0.4527054 * dm +
    0.3726641 * smoking +
    0.3886854 * (min egfr 60 - 60) / (-15) +
    0.0081661 * (max egfr 60 - 90) / (-15) +
    0.2508052 * bptreat -
    0.1538484 * statin -
    0.0474695 * bptreat * (max sbp 110 - 130) / 20 +
    0.1415382 * statin * (mmol_conversion (tc - hdl) - 3.5) -
    0.0436455 * (age - 55) / 10 * (mmol_conversion (tc - hdl) - 3.5) +
    0.0199549 * (age - 55) / 10 * (mmol_conversion hdl - 1.3) / 0.3 -
    0.1022686 * (age - 55) / 10 * (max sbp 110 - 130) / 20 -
    0.1762507 * (age - 55) / 10 * dm -
    0.0715873 * (age - 55) / 10 * smoking -
    0.1428668 * (age - 55) / 10 * (min egfr 60 - 60) / (-15) +
    getSdiTerm sdi 0.0802431 0.275073 0.144759 +
    getUacrTerm uacr 0.1772853 0.1095674 +
    getHba1cTerm hba1c dm 0.1165698 0.1048297 (-0.0230072)

/-- Log-odds formula for 10-year ASCVD, male, full model. -/
noncomputable def logor_10yr_ASCVD_male_full
    (age tc hdl sbp dm smoking egfr bptreat statin : ℝ)
    (uacr hba1c sdi : Option ℚ) : ℝ :=
  -3.969788 +
    0.7128741 * (age - 55) / 10 +
    0.1465201 * (mmol_conversion tc - mmol_conversion hdl - 3.5) -
    0.1125794 * (mmol_conversion hdl - 1.3) / 0.3 -
    0.3387216 * (min sbp 110 - 110) / 20 +
    0.2980252 * (max sbp 110 - 130) / 20 +
    0.399583 * dm +
    0.3379111 * smoking +
    0.2582604 * (min egfr 60 - 60) / (-15) +
    0.0147769 * (max egfr 60 - 90) / (-15) +
    0.1686621 * bptreat -
    0.1073619 * statin -
    0.0381038 * bptreat * (max sbp 110 - 130) / 20 +
    0.1034169 * statin * (mmol_conversion tc - mmol_conversion hdl - 3.5) -
    0.0228755 * (age - 55) / 10 * (mmol_conversion tc - mmol_conversion hdl - 3.5) +
    0.0267453 * (age - 55) / 10 * (mmol_conversion hdl - 1.3) / 0.3 -
    0.0897449 * (age - 55) / 10 * (max sbp 110 - 130) / 20 -
    0.1497464 * (age - 55) / 10 * dm -
    0.077206 * (age - 55) / 10 * smoking -
    0.1198368 * (age - 55) / 10 * (min egfr 60 - 60) / (-15) +
    getSdiTerm sdi 0.0651121 0.2676683 0.1388492 +
    getUacrTerm uacr 0.1375837 0.0652944 +
    getHba1cTerm hba1c dm 0.101282 0.1092726 (-0.0112852)

/-- Log-odds formula for 10-year HF, male, full model. -/
noncomputable def logor_10yr_HF_male_full
    (age sbp dm smoking bmi egfr bptreat : ℝ)
    (uacr hba1c sdi : Option ℚ) : ℝ :=
  -4.663513 +
    0.9095703 * (age - 55) / 10 -
    0.6765184 * (min sbp 110 - 110) / 20 +
    0.3111651 * (max sbp 110 - 130) / 20 +
    0.5535052 * dm +
    0.4326811 * smoking -
    0.0854286 * (min bmi 30 - 25) / 5 +
    0.3551736 * (max bmi 30 - 30) / 5 +
    0.5102245 * (min egfr 60 - 60) / (-15) +
    0.015472 * (max egfr 60 - 90) / (-15) +
    0.2570964 * bptreat -
    0.0591177 * bptreat * (max sbp 110 - 130) / 20 -
    0.1219056 * (age - 55) / 10 * (max sbp 110 - 130) / 20 -
    0.2437577 * (age - 55) / 10 * dm -
    0.105363 * (age - 55) / 10 * smoking +
    0.0037907 * (age - 55) / 10 * (max bmi 30 - 30) / 5 -
    0.1660207 * (age - 55) / 10 * (min egfr 60 - 60) / (-15) +
    getSdiTerm sdi 0.1106372 0.3371204 0.1694628 +
    getUacrTerm uacr 0.2164607 0.1702805 +
    getHba1cTerm hba1c dm 0.148297 0.1234088 (-0.0234637)

/-- Log-odds formula for 30-year CVD, male, full model. -/
noncomputable def logor_30yr_CVD_male_full
    (age tc hdl sbp dm smoking egfr bptreat statin : ℝ)
    (uacr hba1c sdi : Option ℚ) : ℝ :=
  -1.504558 +
    0.4427595 * (age - 55) / 10 -
    0.1064108 * ((age - 55) / 10) ^ 2 +
    0.0629381 * (mmol_conversion (tc - hdl) - 3.5) -
    0.1015427 * (mmol_conversion hdl - 1.3) / 0.3 -
    0.2542326 * (min sbp 110 - 110) / 20 +
    0.2549679 * (max sbp 110 - 130) / 20 +
    0.333835 * dm +
    0.1873833 * smoking +
    0.0246102 * (min egfr 60 - 60) / (-15) +
    0.0552014 * (max egfr 60 - 90) / (-15) +
    0.1979729 * bptreat -
    0.0407714 * statin -
    0.0365522 * bptreat * (max sbp 110 - 130) / 20 +
    0.1232822 * statin * (mmol_conversion (tc - hdl) - 3.5) -
    0.0441334 * (age - 55) / 10 * (mmol_conversion (tc - hdl) - 3.5) +
    0.0177865 * (age - 55) / 10 * (mmol_conversion hdl - 1.3) / 0.3 -
    0.1046657 * (age - 55) / 10 * (max sbp 110 - 130) / 20 -
    0.2116113 * (age - 55) / 10 * dm -
    0.1277905 * (age - 55) / 10 * smoking -
    0.0955922 * (age - 55) / 10 * (min egfr 60 - 60) / (-15) +
    getSdiTerm sdi 0.0256704 0.1887637 0.089241 +
    getUacrTerm uacr 0.0894596 0.0710124 +
    getHba1cTerm hba1c dm 0.0676202 0.063409 0.0038783

/-- Log-odds formula for 30-year ASCVD, male, full model. -/
noncomputable def logor_30yr_ASCVD_male_full
    (age tc hdl sbp dm smoking egfr bptreat statin : ℝ)
    (uacr hba1c sdi : Option ℚ) : ℝ :=
  -1.985368 +
    0.3743566 * (age - 55) / 10 -
    0.0995499 * ((age - 55) / 10) ^ 2 +
    0.1544808 * (mmol_conversion tc - mmol_conversion hdl - 3.5) -
    0.1215297 * (mmol_conversion hdl - 1.3) / 0.3 -
    0.1083968 * (min sbp 110 - 110) / 20 +
    0.2555179 * (max sbp 110 - 130) / 20 +
    0.2696998 * dm +
    0.1628432 * smoking -
    0.077507 * (min egfr 60 - 60) / (-15) +
    0.0583407 * (max egfr 60 - 90) / (-15) +
    0.1120322 * bptreat -
    0.0025063 * statin -
    0.0256116 * bptreat * (max sbp 110 - 130) / 20 +
    0.0886745 * statin * (mmol_conversion tc - mmol_conversion hdl - 3.5) -
    0.0254507 * (age - 55) / 10 * (mmol_conversion tc - mmol_conversion hdl - 3.5) +
    0.0244639 * (age - 55) / 10 * (mmol_conversion hdl - 1.3) / 0.3 -
    0.0869146 * (age - 55) / 10 * (max sbp 110 - 130) / 20 -
    0.165745 * (age - 55) / 10 * dm -
    0.1244714 * (age - 55) / 10 * smoking -
    0.0624552 * (age - 55) / 10 * (min egfr 60 - 60) / (-15) +
    getSdiTerm sdi 0.015675 0.1864231 0.0845697 +
    getUacrTerm uacr 0.0560171 0.0252244 +
    getHba1cTerm hba1c dm 0.0501422 0.0722905 0.0114945

/-- Log-odds formula for 30-year HF, male, full model. -/
noncomputable def logor_30yr_HF_male_full
    (age sbp dm smoking bmi egfr bptreat : ℝ)
    (uacr hba1c sdi : Option ℚ) : ℝ :=
  -2.425439 +
    0.5478829 * (age - 55) / 10 -
    0.1111928 * ((age - 55) / 10) ^ 2 -
    0.4547346 * (min sbp 110 - 110) / 20 +
    0.2527602 * (max sbp 110 - 130) / 20 +
    0.4385384 * dm +
    0.2397952 * smoking +
    0.0640931 * (min bmi 30 - 25) / 5 +
    0.2643081 * (max bmi 30 - 30) / 5 +
    0.1354588 * (min egfr 60 - 60) / (-15) +
    0.0570689 * (max egfr 60 - 90) / (-15) +
    0.220666 * bptreat -
    0.0436769 * bptreat * (max sbp 110 - 130) / 20 -
    0.1168376 * (age - 55) / 10 * (max sbp 110 - 130) / 20 -
    0.2730055 * (age - 55) / 10 * dm -
    0.1573691 * (age - 55) / 10 * smoking -
    0.0174998 * (age - 55) / 10 * (max bmi 30 - 30) / 5 -
    0.1128676 * (age - 55) / 10 * (min egfr 60 - 60) / (-15) +
    getSdiTerm sdi 0.057746 0.2446441 0.1076782 +
    getUacrTerm uacr 0.1233486 0.1274796 +
    getHba1cTerm hba1c dm 0.0985062 0.0804844 0.0022806

/-! Sex dispatch of `preventBase` and `preventFull` (`if (sex === 1) {...female
formulas...} else {...male formulas...}`), with the source's argument
defaulting `tc || 0`, `hdl || 0`, `statin || 0`, `bmi || 25`. -/

/-- Sex-dispatched base 10-year CVD log-odds. -/
noncomputable def baseLogor_10yr_CVD (p : PreventInputs) : ℝ :=
  if p.sex = 1 then
    logor_10yr_CVD_female_base p.age (jsOr p.tc 0) (jsOr p.hdl 0) p.sbp p.dm
      p.smoking p.egfr p.bptreat (jsOr p.statin 0)
  else
    logor_10yr_CVD_male_base p.age (jsOr p.tc 0) (jsOr p.hdl 0) p.sbp p.dm
      p.smoking p.egfr p.bptreat (jsOr p.statin 0)

/-- Sex-dispatched base 30-year CVD log-odds. -/
noncomputable def baseLogor_30yr_CVD (p : PreventInputs) : ℝ :=
  if p.sex = 1 then
    logor_30yr_CVD_female_base p.age (jsOr p.tc 0) (jsOr p.hdl 0) p.sbp p.dm
      p.smoking p.egfr p.bptreat (jsOr p.statin 0)
  else
    logor_30yr_CVD_male_base p.age (jsOr p.tc 0) (jsOr p.hdl 0) p.sbp p.dm
      p.smoking p.egfr p.bptreat (jsOr p.statin 0)

/-- Sex-dispatched base 10-year ASCVD log-odds. -/
noncomputable def baseLogor_10yr_ASCVD (p : PreventInputs) : ℝ :=
  if p.sex = 1 then
    logor_10yr_ASCVD_female_base p.age (jsOr p.tc 0) (jsOr p.hdl 0) p.sbp p.dm
      p.smoking p.egfr p.bptreat (jsOr p.statin 0)
  else
    logor_10yr_ASCVD_male_base p.age (jsOr p.tc 0) (jsOr p.hdl 0) p.sbp p.dm
      p.smoking p.egfr p.bptreat (jsOr p.statin 0)

/-- Sex-dispatched base 30-year ASCVD log-odds. -/
noncomputable def baseLogor_30yr_ASCVD (p : PreventInputs) : ℝ :=
  if p.sex = 1 then
    logor_30yr_ASCVD_female_base p.age (jsOr p.tc 0) (jsOr p.hdl 0) p.sbp p.dm
      p.smoking p.egfr p.bptreat (jsOr p.statin 0)
  else
    logor_30yr_ASCVD_male_base p.age (jsOr p.tc 0) (jsOr p.hdl 0) p.sbp p.dm
      p.smoking p.egfr p.bptreat (jsOr p.statin 0)

/-- Sex-dispatched base 10-year HF log-odds; reads no cholesterol-panel input. -/
noncomputable def baseLogor_10yr_HF (p : PreventInputs) : ℝ :=
  if p.sex = 1 then
    logor_10yr_HF_female_base p.age p.sbp p.dm p.smoking (jsOr p.bmi 25) p.egfr p.bptreat
  else
    logor_10yr_HF_male_base p.age p.sbp p.dm p.smoking (jsOr p.bmi 25) p.egfr p.bptreat

/-- Sex-dispatched base 30-year HF log-odds; reads no cholesterol-panel input. -/
noncomputable def baseLogor_30yr_HF (p : PreventInputs) : ℝ :=
  if p.sex = 1 then
    logor_30yr_HF_female_base p.age p.sbp p.dm p.smoking (jsOr p.bmi 25) p.egfr p.bptreat
  else
    logor_30yr_HF_male_base p.age p.sbp p.dm p.smoking (jsOr p.bmi 25) p.egfr p.bptreat

/-- Sex-dispatched full 10-year CVD log-odds. -/
noncomputable def fullLogor_10yr_CVD (p : PreventInputs) : ℝ :=
  if p.sex = 1 then
    logor_10yr_CVD_female_full p.age (jsOr p.tc 0) (jsOr p.hdl 0) p.sbp p.dm
      p.smoking p.egfr p.bptreat (jsOr p.statin 0) p.uacr p.hba1c p.sdi
  else
    logor_10yr_CVD_male_full p.age (jsOr p.tc 0) (jsOr p.hdl 0) p.sbp p.dm
      p.smoking p.egfr p.bptreat (jsOr p.statin 0) p.uacr p.hba1c p.sdi

/-- Sex-dispatched full 30-year CVD log-odds. -/
noncomputable def fullLogor_30yr_CVD (p : PreventInputs) : ℝ :=
  if p.sex = 1 then
    logor_30yr_CVD_female_full p.age (jsOr p.tc 0) (jsOr p.hdl 0) p.sbp p.dm
      p.smoking p.egfr p.bptreat (jsOr p.statin 0) p.uacr p.hba1c p.sdi
  else
    logor_30yr_CVD_male_full p.age (jsOr p.tc 0) (jsOr p.hdl 0) p.sbp p.dm
      p.smoking p.egfr p.bptreat (jsOr p.statin 0) p.uacr p.hba1c p.sdi

/-- Sex-dispatched full 10-year ASCVD log-odds. -/
noncomputable def fullLogor_10yr_ASCVD (p : PreventInputs) : ℝ :=
  if p.sex = 1 then
    logor_10yr_ASCVD_female_full p.age (jsOr p.tc 0) (jsOr p.hdl 0) p.sbp p.dm
      p.smoking p.egfr p.bptreat (jsOr p.statin 0) p.uacr p.hba1c p.sdi
  else
    logor_10yr_ASCVD_male_full p.age (jsOr p.tc 0) (jsOr p.hdl 0) p.sbp p.dm
      p.smoking p.egfr p.bptreat (jsOr p.statin 0) p.uacr p.hba1c p.sdi

/-- Sex-dispatched full 30-year ASCVD log-odds. -/
noncomputable def fullLogor_30yr_ASCVD (p : PreventInputs) : ℝ :=
  if p.sex = 1 then
    logor_30yr_ASCVD_female_full p.age (jsOr p.tc 0) (jsOr p.hdl 0) p.sbp p.dm
      p.smoking p.egfr p.bptreat (jsOr p.statin 0) p.uacr p.hba1c p.sdi
  else
    logor_30yr_ASCVD_male_full p.age (jsOr p.tc 0) (jsOr p.hdl 0) p.sbp p.dm
      p.smoking p.egfr p.bptreat (jsOr p.statin 0) p.uacr p.hba1c p.sdi

/-- Sex-dispatched full 10-year HF log-odds; reads no cholesterol-panel input. -/
noncomputable def fullLogor_10yr_HF (p : PreventInputs) : ℝ :=
  if p.sex = 1 then
    logor_10yr_HF_female_full p.age p.sbp p.dm p.smoking (jsOr p.bmi 25) p.egfr
      p.bptreat p.uacr p.hba1c p.sdi
  else
    logor_10yr_HF_male_full p.age p.sbp p.dm p.smoking (jsOr p.bmi 25) p.egfr
      p.bptreat p.uacr p.hba1c p.sdi

/-- Sex-dispatched full 30-year HF log-odds; reads no cholesterol-panel input. -/
noncomputable def fullLogor_30yr_HF (p : PreventInputs) : ℝ :=
  if p.sex = 1 then
    logor_30yr_HF_female_full p.age p.sbp p.dm p.smoking (jsOr p.bmi 25) p.egfr
      p.bptreat p.uacr p.hba1c p.sdi
  else
    logor_30yr_HF_male_full p.age p.sbp p.dm p.smoking (jsOr p.bmi 25) p.egfr
      p.bptreat p.uacr p.hba1c p.sdi

/-- Embedding of `preventBase`: the base-model risk calculation, with the two
early validity returns, the 30-year age gate (`calculate30yr = age <= 59`),
and the sequential nullification rules of the source in their original order
(tc, hdl, sbp, egfr, statin, bmi). -/
noncomputable def preventBase (p : PreventInputs) : PreventResults :=
  if sexInvalid p.sex then
    ⟨none, none, none, none, none, none, ModelTag.base⟩
  else if ageInvalid p.age then
    ⟨none, none, none, none, none, none, ModelTag.base⟩
  else
    let prevent_10yr_CVD : Option ℝ := some (pct (baseLogor_10yr_CVD p))
    let prevent_30yr_CVD : Option ℝ :=
      if p.age ≤ 59 then some (pct (baseLogor_30yr_CVD p)) else none
    let prevent_10yr_ASCVD : Option ℝ := some (pct (baseLogor_10yr_ASCVD p))
    let prevent_30yr_ASCVD : Option ℝ :=
      if p.age ≤ 59 then some (pct (baseLogor_30yr_ASCVD p)) else none
    let prevent_10yr_HF : Option ℝ := some (pct (baseLogor_10yr_HF p))
    let prevent_30yr_HF : Option ℝ :=
      if p.age ≤ 59 then some (pct (baseLogor_30yr_HF p)) else none
    let prevent_10yr_CVD := nullIf (tcInvalid p.tc) prevent_10yr_CVD
    let prevent_30yr_CVD := nullIf (tcInvalid p.tc) prevent_30yr_CVD
    let prevent_10yr_ASCVD := nullIf (tcInvalid p.tc) prevent_10yr_ASCVD
    let prevent_30yr_ASCVD := nullIf (tcInvalid p.tc) prevent_30yr_ASCVD
    let prevent_10yr_CVD := nullIf (hdlInvalid p.hdl) prevent_10yr_CVD
    let prevent_30yr_CVD := nullIf (hdlInvalid p.hdl) prevent_30yr_CVD
    let prevent_10yr_ASCVD := nullIf (hdlInvalid p.hdl) prevent_10yr_ASCVD
    let prevent_30yr_ASCVD := nullIf (hdlInvalid p.hdl) prevent_30yr_ASCVD
    let prevent_10yr_CVD := nullIf (sbpInvalid p.sbp) prevent_10yr_CVD
    let prevent_30yr_CVD := nullIf (sbpInvalid p.sbp) prevent_30yr_CVD
    let prevent_10yr_ASCVD := nullIf (sbpInvalid p.sbp) prevent_10yr_ASCVD
    let prevent_30yr_ASCVD := nullIf (sbpInvalid p.sbp) prevent_30yr_ASCVD
    let prevent_10yr_HF := nullIf (sbpInvalid p.sbp) prevent_10yr_HF
    let prevent_30yr_HF := nullIf (sbpInvalid p.sbp) prevent_30yr_HF
    let prevent_10yr_CVD := nullIf (egfrInvalid p.egfr) prevent_10yr_CVD
    let prevent_30yr_CVD := nullIf (egfrInvalid p.egfr) prevent_30yr_CVD
    let prevent_10yr_ASCVD := nullIf (egfrInvalid p.egfr) prevent_10yr_ASCVD
    let prevent_30yr_ASCVD := nullIf (egfrInvalid p.egfr) prevent_30yr_ASCVD
    let prevent_10yr_HF := nullIf (egfrInvalid p.egfr) prevent_10yr_HF
    let prevent_30yr_HF := nullIf (egfrInvalid p.egfr) prevent_30yr_HF
    let prevent_10yr_CVD := nullIf (statinMissing p.statin) prevent_10yr_CVD
    let prevent_30yr_CVD := nullIf (statinMissing p.statin) prevent_30yr_CVD
    let prevent_10yr_ASCVD := nullIf (statinMissing p.statin) prevent_10yr_ASCVD
    let prevent_30yr_ASCVD := nullIf (statinMissing p.statin) prevent_30yr_ASCVD
    let prevent_10yr_HF := nullIf (bmiInvalid p.bmi) prevent_10yr_HF
    let prevent_30yr_HF := nullIf (bmiInvalid p.bmi) prevent_30yr_HF
    ⟨prevent_10yr_CVD, prevent_30yr_CVD, prevent_10yr_ASCVD,
      prevent_30yr_ASCVD, prevent_10yr_HF, prevent_30yr_HF, ModelTag.base⟩

/-- Embedding of `preventFull`: the full-model risk calculation; identical
structure to `preventBase` plus the three optional-variable range rules
(uacr, hba1c, sdi) appended after the shared rules, and the tag `full`. -/
noncomputable def preventFull (p : PreventInputs) : PreventResults :=
  if sexInvalid p.sex then
    ⟨none, none, none, none, none, none, ModelTag.full⟩
  else if ageInvalid p.age then
    ⟨none, none, none, none, none, none, ModelTag.full⟩
  else
    let prevent_10yr_CVD : Option ℝ := some (pct (fullLogor_10yr_CVD p))
    let prevent_30yr_CVD : Option ℝ :=
      if p.age ≤ 59 then some (pct (fullLogor_30yr_CVD p)) else none
    let prevent_10yr_ASCVD : Option ℝ := some (pct (fullLogor_10yr_ASCVD p))
    let prevent_30yr_ASCVD : Option ℝ :=
      if p.age ≤ 59 then some (pct (fullLogor_30yr_ASCVD p)) else none
    let prevent_10yr_HF : Option ℝ := some (pct (fullLogor_10yr_HF p))
    let prevent_30yr_HF : Option ℝ :=
      if p.age ≤ 59 then some (pct (fullLogor_30yr_HF p)) else none
    let prevent_10yr_CVD := nullIf (tcInvalid p.tc) prevent_10yr_CVD
    let prevent_30yr_CVD := nullIf (tcInvalid p.tc) prevent_30yr_CVD
    let prevent_10yr_ASCVD := nullIf (tcInvalid p.tc) prevent_10yr_ASCVD
    let prevent_30yr_ASCVD := nullIf (tcInvalid p.tc) prevent_30yr_ASCVD
    let prevent_10yr_CVD := nullIf (hdlInvalid p.hdl) prevent_10yr_CVD
    let prevent_30yr_CVD := nullIf (hdlInvalid p.hdl) prevent_30yr_CVD
    let prevent_10yr_ASCVD := nullIf (hdlInvalid p.hdl) prevent_10yr_ASCVD
    let prevent_30yr_ASCVD := nullIf (hdlInvalid p.hdl) prevent_30yr_ASCVD
    let prevent_10yr_CVD := nullIf (sbpInvalid p.sbp) prevent_10yr_CVD
    let prevent_30yr_CVD := nullIf (sbpInvalid p.sbp) prevent_30yr_CVD
    let prevent_10yr_ASCVD := nullIf (sbpInvalid p.sbp) prevent_10yr_ASCVD
    let prevent_30yr_ASCVD := nullIf (sbpInvalid p.sbp) prevent_30yr_ASCVD
    let prevent_10yr_HF := nullIf (sbpInvalid p.sbp) prevent_10yr_HF
    let prevent_30yr_HF := nullIf (sbpInvalid p.sbp) prevent_30yr_HF
    let prevent_10yr_CVD := nullIf (egfrInvalid p.egfr) prevent_10yr_CVD
    let prevent_30yr_CVD := nullIf (egfrInvalid p.egfr) prevent_30yr_CVD
    let prevent_10yr_ASCVD := nullIf (egfrInvalid p.egfr) prevent_10yr_ASCVD
    let prevent_30yr_ASCVD := nullIf (egfrInvalid p.egfr) prevent_30yr_ASCVD
    let prevent_10yr_HF := nullIf (egfrInvalid p.egfr) prevent_10yr_HF
    let prevent_30yr_HF := nullIf (egfrInvalid p.egfr) prevent_30yr_HF
    let prevent_10yr_CVD := nullIf (statinMissing p.statin) prevent_10yr_CVD
    let prevent_30yr_CVD := nullIf (statinMissing p.statin) prevent_30yr_CVD
    let prevent_10yr_ASCVD := nullIf (statinMissing p.statin) prevent_10yr_ASCVD
    let prevent_30yr_ASCVD := nullIf (statinMissing p.statin) prevent_30yr_ASCVD
    let prevent_10yr_HF := nullIf (bmiInvalid p.bmi) prevent_10yr_HF
    let prevent_30yr_HF := nullIf (bmiInvalid p.bmi) prevent_30yr_HF
    let prevent_10yr_CVD := nullIf (uacrInvalid p.uacr) prevent_10yr_CVD
    let prevent_30yr_CVD := nullIf (uacrInvalid p.uacr) prevent_30yr_CVD
    let prevent_10yr_ASCVD := nullIf (uacrInvalid p.uacr) prevent_10yr_ASCVD
    let prevent_30yr_ASCVD := nullIf (uacrInvalid p.uacr) prevent_30yr_ASCVD
    let prevent_10yr_HF := nullIf (uacrInvalid p.uacr) prevent_10yr_HF
    let prevent_30yr_HF := nullIf (uacrInvalid p.uacr) prevent_30yr_HF
    let prevent_10yr_CVD := nullIf (hba1cInvalid p.hba1c) prevent_10yr_CVD
    let prevent_30yr_CVD := nullIf (hba1cInvalid p.hba1c) prevent_30yr_CVD
    let prevent_10yr_ASCVD := nullIf (hba1cInvalid p.hba1c) prevent_10yr_ASCVD
    let prevent_30yr_ASCVD := nullIf (hba1cInvalid p.hba1c) prevent_30yr_ASCVD
    let prevent_10yr_HF := nullIf (hba1cInvalid p.hba1c) prevent_10yr_HF
    let prevent_30yr_HF := nullIf (hba1cInvalid p.hba1c) prevent_30yr_HF
    let prevent_10yr_CVD := nullIf (sdiInvalid p.sdi) prevent_10yr_CVD
    let prevent_30yr_CVD := nullIf (sdiInvalid p.sdi) prevent_30yr_CVD
    let prevent_10yr_ASCVD := nullIf (sdiInvalid p.sdi) prevent_10yr_ASCVD
    let prevent_30yr_ASCVD := nullIf (sdiInvalid p.sdi) prevent_30yr_ASCVD
    let prevent_10yr_HF := nullIf (sdiInvalid p.sdi) prevent_10yr_HF
    let prevent_30yr_HF := nullIf (sdiInvalid p.sdi) prevent_30yr_HF
    ⟨prevent_10yr_CVD, prevent_30yr_CVD, prevent_10yr_ASCVD,
      prevent_30yr_ASCVD, prevent_10yr_HF, prevent_30yr_HF, ModelTag.full⟩

/-- Embedding of `calculatePreventRisk`: selects the full model when any of
uacr, hba1c, sdi is supplied, otherwise the base model. -/
noncomputable def calculatePreventRisk (p : PreventInputs) : PreventResults :=
  if hasOptionalVars p then preventFull p else preventBase p

/-! Basic lemmas about `nullIf`, and closed-form characterizations of the six
output fields of each model. -/

theorem nullIf_none (c : Prop) [Decidable c] : nullIf c none = none := by
  unfold nullIf
  split <;> rfl

theorem nullIf_nullIf (c d : Prop) [Decidable c] [Decidable d] (o : Option ℝ) :
    nullIf c (nullIf d o) = nullIf (c ∨ d) o := by
  unfold nullIf
  split_ifs <;> first | rfl | tauto

theorem preventBase_10yr_CVD (p : PreventInputs) :
    (preventBase p).prevent_10yr_CVD =
      if sexInvalid p.sex ∨ ageInvalid p.age ∨ statinMissing p.statin ∨
          egfrInvalid p.egfr ∨ sbpInvalid p.sbp ∨ hdlInvalid p.hdl ∨ tcInvalid p.tc
      then none
      else some (pct (baseLogor_10yr_CVD p)) := by
  rw [preventBase]
  by_cases hs : sexInvalid p.sex
  · rw [if_pos hs]
    exact (if_pos (Or.inl hs)).symm
  by_cases ha : ageInvalid p.age
  · rw [if_neg hs, if_pos ha]
    exact (if_pos (Or.inr (Or.inl ha))).symm
  rw [if_neg hs, if_neg ha]
  simp only [nullIf_nullIf]
  unfold nullIf
  split_ifs <;> first | rfl | tauto

theorem preventBase_30yr_CVD (p : PreventInputs) :
    (preventBase p).prevent_30yr_CVD =
      if sexInvalid p.sex ∨ ageInvalid p.age ∨ statinMissing p.statin ∨
          egfrInvalid p.egfr ∨ sbpInvalid p.sbp ∨ hdlInvalid p.hdl ∨ tcInvalid p.tc ∨
          ¬ p.age ≤ 59
      then none
      else some (pct (baseLogor_30yr_CVD p)) := by
  rw [preventBase]
  by_cases hs : sexInvalid p.sex
  · rw [if_pos hs]
    exact (if_pos (Or.inl hs)).symm
  by_cases ha : ageInvalid p.age
  · rw [if_neg hs, if_pos ha]
    exact (if_pos (Or.inr (Or.inl ha))).symm
  rw [if_neg hs, if_neg ha]
  simp only [nullIf_nullIf]
  unfold nullIf
  split_ifs <;> first | rfl | tauto

theorem preventBase_10yr_ASCVD (p : PreventInputs) :
    (preventBase p).prevent_10yr_ASCVD =
      if sexInvalid p.sex ∨ ageInvalid p.age ∨ statinMissing p.statin ∨
          egfrInvalid p.egfr ∨ sbpInvalid p.sbp ∨ hdlInvalid p.hdl ∨ tcInvalid p.tc
      then none
      else some (pct (baseLogor_10yr_ASCVD p)) := by
  rw [preventBase]
  by_cases hs : sexInvalid p.sex
  · rw [if_pos hs]
    exact (if_pos (Or.inl hs)).symm
  by_cases ha : ageInvalid p.age
  · rw [if_neg hs, if_pos ha]
    exact (if_pos (Or.inr (Or.inl ha))).symm
  rw [if_neg hs, if_neg ha]
  simp only [nullIf_nullIf]
  unfold nullIf
  split_ifs <;> first | rfl | tauto

theorem preventBase_30yr_ASCVD (p : PreventInputs) :
    (preventBase p).prevent_30yr_ASCVD =
      if sexInvalid p.sex ∨ ageInvalid p.age ∨ statinMissing p.statin ∨
          egfrInvalid p.egfr ∨ sbpInvalid p.sbp ∨ hdlInvalid p.hdl ∨ tcInvalid p.tc ∨
          ¬ p.age ≤ 59
      then none
      else some (pct (baseLogor_30yr_ASCVD p)) := by
  rw [preventBase]
  by_cases hs : sexInvalid p.sex
  · rw [if_pos hs]
    exact (if_pos (Or.inl hs)).symm
  by_cases ha : ageInvalid p.age
  · rw [if_neg hs, if_pos ha]
    exact (if_pos (Or.inr (Or.inl ha))).symm
  rw [if_neg hs, if_neg ha]
  simp only [nullIf_nullIf]
  unfold nullIf
  split_ifs <;> first | rfl | tauto

theorem preventBase_10yr_HF (p : PreventInputs) :
    (preventBase p).prevent_10yr_HF =
      if sexInvalid p.sex ∨ ageInvalid p.age ∨ bmiInvalid p.bmi ∨
          egfrInvalid p.egfr ∨ sbpInvalid p.sbp
      then none
      else some (pct (baseLogor_10yr_HF p)) := by
  rw [preventBase]
  by_cases hs : sexInvalid p.sex
  · rw [if_pos hs]
    exact (if_pos (Or.inl hs)).symm
  by_cases ha : ageInvalid p.age
  · rw [if_neg hs, if_pos ha]
    exact (if_pos (Or.inr (Or.inl ha))).symm
  rw [if_neg hs, if_neg ha]
  simp only [nullIf_nullIf]
  unfold nullIf
  split_ifs <;> first | rfl | tauto

theorem preventBase_30yr_HF (p : PreventInputs) :
    (preventBase p).prevent_30yr_HF =
      if sexInvalid p.sex ∨ ageInvalid p.age ∨ bmiInvalid p.bmi ∨
          egfrInvalid p.egfr ∨ sbpInvalid p.sbp ∨ ¬ p.age ≤ 59
      then none
      else some (pct (baseLogor_30yr_HF p)) := by
  rw [preventBase]
  by_cases hs : sexInvalid p.sex
  · rw [if_pos hs]
    exact (if_pos (Or.inl hs)).symm
  by_cases ha : ageInvalid p.age
  · rw [if_neg hs, if_pos ha]
    exact (if_pos (Or.inr (Or.inl ha))).symm
  rw [if_neg hs, if_neg ha]
  simp only [nullIf_nullIf]
  unfold nullIf
  split_ifs <;> first | rfl | tauto

theorem preventBase_model (p : PreventInputs) :
    (preventBase p).model = ModelTag.base := by
  simp only [preventBase]
  split_ifs <;> rfl

theorem preventFull_10yr_CVD (p : PreventInputs) :
    (preventFull p).prevent_10yr_CVD =
      if sexInvalid p.sex ∨ ageInvalid p.age ∨ sdiInvalid p.sdi ∨
          hba1cInvalid p.hba1c ∨ uacrInvalid p.uacr ∨ statinMissing p.statin ∨
          egfrInvalid p.egfr ∨ sbpInvalid p.sbp ∨ hdlInvalid p.hdl ∨ tcInvalid p.tc
      then none
      else some (pct (fullLogor_10yr_CVD p)) := by
  rw [preventFull]
  by_cases hs : sexInvalid p.sex
  · rw [if_pos hs]
    exact (if_pos (Or.inl hs)).symm
  by_cases ha : ageInvalid p.age
  · rw [if_neg hs, if_pos ha]
    exact (if_pos (Or.inr (Or.inl ha))).symm
  rw [if_neg hs, if_neg ha]
  simp only [nullIf_nullIf]
  unfold nullIf
  split_ifs <;> first | rfl | tauto

theorem preventFull_30yr_CVD (p : PreventInputs) :
    (preventFull p).prevent_30yr_CVD =
      if sexInvalid p.sex ∨ ageInvalid p.age ∨ sdiInvalid p.sdi ∨
          hba1cInvalid p.hba1c ∨ uacrInvalid p.uacr ∨ statinMissing p.statin ∨
          egfrInvalid p.egfr ∨ sbpInvalid p.sbp ∨ hdlInvalid p.hdl ∨ tcInvalid p.tc ∨
          ¬ p.age ≤ 59
      then none
      else some (pct (fullLogor_30yr_CVD p)) := by
  rw [preventFull]
  by_cases hs : sexInvalid p.sex
  · rw [if_pos hs]
    exact (if_pos (Or.inl hs)).symm
  by_cases ha : ageInvalid p.age
  · rw [if_neg hs, if_pos ha]
    exact (if_pos (Or.inr (Or.inl ha))).symm
  rw [if_neg hs, if_neg ha]
  simp only [nullIf_nullIf]
  unfold nullIf
  split_ifs <;> first | rfl | tauto

theorem preventFull_10yr_ASCVD (p : PreventInputs) :
    (preventFull p).prevent_10yr_ASCVD =
      if sexInvalid p.sex ∨ ageInvalid p.age ∨ sdiInvalid p.sdi ∨
          hba1cInvalid p.hba1c ∨ uacrInvalid p.uacr ∨ statinMissing p.statin ∨
          egfrInvalid p.egfr ∨ sbpInvalid p.sbp ∨ hdlInvalid p.hdl ∨ tcInvalid p.tc
      then none
      else some (pct (fullLogor_10yr_ASCVD p)) := by
  rw [preventFull]
  by_cases hs : sexInvalid p.sex
  · rw [if_pos hs]
    exact (if_pos (Or.inl hs)).symm
  by_cases ha : ageInvalid p.age
  · rw [if_neg hs, if_pos ha]
    exact (if_pos (Or.inr (Or.inl ha))).symm
  rw [if_neg hs, if_neg ha]
  simp only [nullIf_nullIf]
  unfold nullIf
  split_ifs <;> first | rfl | tauto

theorem preventFull_30yr_ASCVD (p : PreventInputs) :
    (preventFull p).prevent_30yr_ASCVD =
      if sexInvalid p.sex ∨ ageInvalid p.age ∨ sdiInvalid p.sdi ∨
          hba1cInvalid p.hba1c ∨ uacrInvalid p.uacr ∨ statinMissing p.statin ∨
          egfrInvalid p.egfr ∨ sbpInvalid p.sbp ∨ hdlInvalid p.hdl ∨ tcInvalid p.tc ∨
          ¬ p.age ≤ 59
      then none
      else some (pct (fullLogor_30yr_ASCVD p)) := by
  rw [preventFull]
  by_cases hs : sexInvalid p.sex
  · rw [if_pos hs]
    exact (if_pos (Or.inl hs)).symm
  by_cases ha : ageInvalid p.age
  · rw [if_neg hs, if_pos ha]
    exact (if_pos (Or.inr (Or.inl ha))).symm
  rw [if_neg hs, if_neg ha]
  simp only [nullIf_nullIf]
  unfold nullIf
  split_ifs <;> first | rfl | tauto

theorem preventFull_10yr_HF (p : PreventInputs) :
    (preventFull p).prevent_10yr_HF =
      if sexInvalid p.sex ∨ ageInvalid p.age ∨ sdiInvalid p.sdi ∨
          hba1cInvalid p.hba1c ∨ uacrInvalid p.uacr ∨ bmiInvalid p.bmi ∨
          egfrInvalid p.egfr ∨ sbpInvalid p.sbp
      then none
      else some (pct (fullLogor_10yr_HF p)) := by
  rw [preventFull]
  by_cases hs : sexInvalid p.sex
  · rw [if_pos hs]
    exact (if_pos (Or.inl hs)).symm
  by_cases ha : ageInvalid p.age
  · rw [if_neg hs, if_pos ha]
    exact (if_pos (Or.inr (Or.inl ha))).symm
  rw [if_neg hs, if_neg ha]
  simp only [nullIf_nullIf]
  unfold nullIf
  split_ifs <;> first | rfl | tauto

theorem preventFull_30yr_HF (p : PreventInputs) :
    (preventFull p).prevent_30yr_HF =
      if sexInvalid p.sex ∨ ageInvalid p.age ∨ sdiInvalid p.sdi ∨
          hba1cInvalid p.hba1c ∨ uacrInvalid p.uacr ∨ bmiInvalid p.bmi ∨
          egfrInvalid p.egfr ∨ sbpInvalid p.sbp ∨ ¬ p.age ≤ 59
      then none
      else some (pct (fullLogor_30yr_HF p)) := by
  rw [preventFull]
  by_cases hs : sexInvalid p.sex
  · rw [if_pos hs]
    exact (if_pos (Or.inl hs)).symm
  by_cases ha : ageInvalid p.age
  · rw [if_neg hs, if_pos ha]
    exact (if_pos (Or.inr (Or.inl ha))).symm
  rw [if_neg hs, if_neg ha]
  simp only [nullIf_nullIf]
  unfold nullIf
  split_ifs <;> first | rfl | tauto

theorem preventFull_model (p : PreventInputs) :
    (preventFull p).model = ModelTag.full := by
  simp only [preventFull]
  split_ifs <;> rfl

/-! Range of the logistic transform, and small facts about optional fields of
the shape produced by the characterizations. -/

theorem pct_bounds (x : ℝ) : 0 < pct x ∧ pct x < 100 := by
  unfold pct
  have hexp : 0 < Real.exp x := Real.exp_pos x
  have hden : 0 < 1 + Real.exp x := by linarith
  constructor
  · positivity
  · rw [div_lt_iff₀ hden]
    nlinarith

theorem ite_none_eq_none (c : Prop) [Decidable c] (v : ℝ) :
    (if c then none else some v : Option ℝ) = none ↔ c := by
  split_ifs with h <;> simp [h]

theorem ite_none_bound (c : Prop) [Decidable c] (x v : ℝ)
    (hv : (if c then none else some (pct x) : Option ℝ) = some v) :
    0 < v ∧ v < 100 := by
  by_cases h : c
  · rw [if_pos h] at hv
    exact Option.noConfusion hv
  · rw [if_neg h] at hv
    obtain rfl : pct x = v := Option.some.inj hv
    exact pct_bounds x

/-! Concrete scenarios used as witnesses (Scenario A of the spec and its
variants). -/

/-- Scenario A of the spec: male, age 45, tc 180, hdl 50, sbp 120, no diabetes,
no smoking, bmi 24, egfr 95, no BP treatment, no statin, no optional vars. -/
def scenarioA : PreventInputs :=
  { sex := 0, age := 45, tc := some 180, hdl := some 50, sbp := 120, dm := 0,
    smoking := 0, bmi := some 24, egfr := 95, bptreat := 0, statin := some 0,
    uacr := none, hba1c := none, sdi := none }

/-- Scenario A with age 65: all 30-year fields must be null. -/
def scenario65 : PreventInputs := { scenarioA with age := 65 }

/-- Scenario B of the spec: Scenario A with tc omitted. -/
def scenarioB : PreventInputs := { scenarioA with tc := none }

/-- Scenario A with a negative UACR supplied: full model with an invalid
optional variable. -/
def scenarioUacrNeg : PreventInputs := { scenarioA with uacr := some (-5) }

/-- C1: for every input record, the `model` tag of `calculatePreventRisk` is
`full` when at least one of uacr, hba1c, sdi is defined and `base` when none
is, regardless of the validity of those values or of any other input. -/
theorem C1_model_selection (p : PreventInputs) :
    (calculatePreventRisk p).model =
      if hasOptionalVars p then ModelTag.full else ModelTag.base := by
  unfold calculatePreventRisk
  by_cases h : hasOptionalVars p
  · rw [if_pos h, if_pos h, preventFull_model]
  · rw [if_neg h, if_neg h, preventBase_model]

/-- C7: the CVD-formula cholesterol delta grouping `toMmolL(tc-hdl) - 3.5`
equals the ASCVD-formula grouping `toMmolL(tc) - toMmolL(hdl) - 3.5` for all
real tc, hdl, since the conversion is linear. -/
theorem C7_chol_delta_grouping (tc hdl : ℝ) :
    mmol_conversion (tc - hdl) - 3.5 =
      mmol_conversion tc - mmol_conversion hdl - 3.5 := by
  unfold mmol_conversion
  ring

/-- C8: for every input, the model tag of `calculatePreventRisk` is exactly
`base` or `full`, although the result type also admits the tags `uacr`,
`hba1c`, `sdi`. -/
theorem C8_model_tag_base_or_full (p : PreventInputs) :
    (calculatePreventRisk p).model = ModelTag.base ∨
      (calculatePreventRisk p).model = ModelTag.full := by
  unfold calculatePreventRisk
  by_cases h : hasOptionalVars p
  · rw [if_pos h, preventFull_model]
    exact Or.inr rfl
  · rw [if_neg h, preventBase_model]
    exact Or.inl rfl

set_option maxHeartbeats 1000000 in
/-- C2: for every input with valid sex and age in [30,79], if age > 59 then all
three 30-year fields of `calculatePreventRisk` are null, independent of every
other input's validity; and in particular at age 65 with all other inputs valid
(Scenario A aged 65) the three 10-year fields are non-null. -/
theorem C2_age_gate_30yr :
    (∀ p : PreventInputs, (p.sex = 0 ∨ p.sex = 1) → 30 ≤ p.age → p.age ≤ 79 →
        59 < p.age →
        (calculatePreventRisk p).prevent_30yr_CVD = none ∧
        (calculatePreventRisk p).prevent_30yr_ASCVD = none ∧
        (calculatePreventRisk p).prevent_30yr_HF = none) ∧
      (calculatePreventRisk scenario65).prevent_10yr_CVD.isSome = true ∧
      (calculatePreventRisk scenario65).prevent_10yr_ASCVD.isSome = true ∧
      (calculatePreventRisk scenario65).prevent_10yr_HF.isSome = true := by
  constructor
  · intro p hsex h30 h79 h59
    have hna : ¬ p.age ≤ 59 := not_le.mpr h59
    unfold calculatePreventRisk
    by_cases h : hasOptionalVars p
    · rw [if_pos h]
      refine ⟨?_, ?_, ?_⟩
      · rw [preventFull_30yr_CVD]
        exact if_pos (by tauto)
      · rw [preventFull_30yr_ASCVD]
        exact if_pos (by tauto)
      · rw [preventFull_30yr_HF]
        exact if_pos (by tauto)
    · rw [if_neg h]
      refine ⟨?_, ?_, ?_⟩
      · rw [preventBase_30yr_CVD]
        exact if_pos (by tauto)
      · rw [preventBase_30yr_ASCVD]
        exact if_pos (by tauto)
      · rw [preventBase_30yr_HF]
        exact if_pos (by tauto)
  · refine ⟨?_, ?_, ?_⟩
    · unfold calculatePreventRisk
      rw [if_neg (by decide), preventBase_10yr_CVD,
        if_neg (by norm_num [scenario65, scenarioA, sexInvalid, ageInvalid,
          tcInvalid, hdlInvalid, sbpInvalid, egfrInvalid, statinMissing,
          Option.some_ne_none])]
      rfl
    · unfold calculatePreventRisk
      rw [if_neg (by decide), preventBase_10yr_ASCVD,
        if_neg (by norm_num [scenario65, scenarioA, sexInvalid, ageInvalid,
          tcInvalid, hdlInvalid, sbpInvalid, egfrInvalid, statinMissing,
          Option.some_ne_none])]
      rfl
    · unfold calculatePreventRisk
      rw [if_neg (by decide), preventBase_10yr_HF,
        if_neg (by norm_num [scenario65, scenarioA, sexInvalid, ageInvalid,
          bmiInvalid, egfrInvalid, sbpInvalid])]
      rfl

/-- Witness for C2: at Scenario A aged 65, all three 30-year fields are null. -/
theorem C2_age_gate_30yr_witness :
    (calculatePreventRisk scenario65).prevent_30yr_CVD = none ∧
    (calculatePreventRisk scenario65).prevent_30yr_ASCVD = none ∧
    (calculatePreventRisk scenario65).prevent_30yr_HF = none :=
  C2_age_gate_30yr.1 scenario65 (Or.inl rfl) (by decide) (by decide) (by decide)

/-- C3: with the full model selected and valid sex and age, a supplied uacr
below 0, a supplied hba1c at or below 0, or a supplied sdi outside [1,10] nulls
all six output fields, overriding the cholesterol-panel and BMI rules. -/
theorem C3_optional_range_nulls_all_six (p : PreventInputs)
    (hopt : hasOptionalVars p) (_hsex : p.sex = 0 ∨ p.sex = 1)
    (_h30 : 30 ≤ p.age) (_h79 : p.age ≤ 79)
    (hbad : uacrInvalid p.uacr ∨ hba1cInvalid p.hba1c ∨ sdiInvalid p.sdi) :
    (calculatePreventRisk p).prevent_10yr_CVD = none ∧
    (calculatePreventRisk p).prevent_30yr_CVD = none ∧
    (calculatePreventRisk p).prevent_10yr_ASCVD = none ∧
    (calculatePreventRisk p).prevent_30yr_ASCVD = none ∧
    (calculatePreventRisk p).prevent_10yr_HF = none ∧
    (calculatePreventRisk p).prevent_30yr_HF = none := by
  unfold calculatePreventRisk
  rw [if_pos hopt]
  refine ⟨?_, ?_, ?_, ?_, ?_, ?_⟩
  · rw [preventFull_10yr_CVD]
    exact if_pos (by tauto)
  · rw [preventFull_30yr_CVD]
    exact if_pos (by tauto)
  · rw [preventFull_10yr_ASCVD]
    exact if_pos (by tauto)
  · rw [preventFull_30yr_ASCVD]
    exact if_pos (by tauto)
  · rw [preventFull_10yr_HF]
    exact if_pos (by tauto)
  · rw [preventFull_30yr_HF]
    exact if_pos (by tauto)

/-- Witness for C3: Scenario A plus `uacr = -5` (valid cholesterol panel and
BMI) has all six fields null. -/
theorem C3_optional_range_nulls_all_six_witness :
    (calculatePreventRisk scenarioUacrNeg).prevent_10yr_CVD = none ∧
    (calculatePreventRisk scenarioUacrNeg).prevent_30yr_CVD = none ∧
    (calculatePreventRisk scenarioUacrNeg).prevent_10yr_ASCVD = none ∧
    (calculatePreventRisk scenarioUacrNeg).prevent_30yr_ASCVD = none ∧
    (calculatePreventRisk scenarioUacrNeg).prevent_10yr_HF = none ∧
    (calculatePreventRisk scenarioUacrNeg).prevent_30yr_HF = none :=
  C3_optional_range_nulls_all_six scenarioUacrNeg (by decide) (Or.inl rfl)
    (by decide) (by decide) (Or.inl (by decide))

set_option maxHeartbeats 1000000 in
/-- C4: for every input with valid sex, age, sbp and egfr, a missing or
out-of-range tc or hdl, or an undefined statin, nulls the four CVD/ASCVD
fields; in Scenario B (Scenario A with tc omitted) the two HF fields stay
non-null and the model tag is `base`. -/
theorem C4_chol_panel_nulls_cvd_ascvd :
    (∀ p : PreventInputs, (p.sex = 0 ∨ p.sex = 1) → 30 ≤ p.age → p.age ≤ 79 →
        ¬ sbpInvalid p.sbp → ¬ egfrInvalid p.egfr →
        (tcInvalid p.tc ∨ hdlInvalid p.hdl ∨ statinMissing p.statin) →
        (calculatePreventRisk p).prevent_10yr_CVD = none ∧
        (calculatePreventRisk p).prevent_30yr_CVD = none ∧
        (calculatePreventRisk p).prevent_10yr_ASCVD = none ∧
        (calculatePreventRisk p).prevent_30yr_ASCVD = none) ∧
      (calculatePreventRisk scenarioB).prevent_10yr_HF.isSome = true ∧
      (calculatePreventRisk scenarioB).prevent_30yr_HF.isSome = true ∧
      (calculatePreventRisk scenarioB).model = ModelTag.base := by
  constructor
  · intro p hsex h30 h79 hsbp hegfr hpanel
    unfold calculatePreventRisk
    by_cases h : hasOptionalVars p
    · rw [if_pos h]
      refine ⟨?_, ?_, ?_, ?_⟩
      · rw [preventFull_10yr_CVD]
        exact if_pos (by tauto)
      · rw [preventFull_30yr_CVD]
        exact if_pos (by tauto)
      · rw [preventFull_10yr_ASCVD]
        exact if_pos (by tauto)
      · rw [preventFull_30yr_ASCVD]
        exact if_pos (by tauto)
    · rw [if_neg h]
      refine ⟨?_, ?_, ?_, ?_⟩
      · rw [preventBase_10yr_CVD]
        exact if_pos (by tauto)
      · rw [preventBase_30yr_CVD]
        exact if_pos (by tauto)
      · rw [preventBase_10yr_ASCVD]
        exact if_pos (by tauto)
      · rw [preventBase_30yr_ASCVD]
        exact if_pos (by tauto)
  · refine ⟨?_, ?_, ?_⟩
    · unfold calculatePreventRisk
      rw [if_neg (by decide), preventBase_10yr_HF,
        if_neg (by norm_num [scenarioB, scenarioA, sexInvalid, ageInvalid,
          bmiInvalid, egfrInvalid, sbpInvalid])]
      rfl
    · unfold calculatePreventRisk
      rw [if_neg (by decide), preventBase_30yr_HF,
        if_neg (by norm_num [scenarioB, scenarioA, sexInvalid, ageInvalid,
          bmiInvalid, egfrInvalid, sbpInvalid])]
      rfl
    · unfold calculatePreventRisk
      rw [if_neg (by decide), preventBase_model]

/-- Witness for C4: in Scenario B the four CVD/ASCVD fields are null. -/
theorem C4_chol_panel_nulls_cvd_ascvd_witness :
    (calculatePreventRisk scenarioB).prevent_10yr_CVD = none ∧
    (calculatePreventRisk scenarioB).prevent_30yr_CVD = none ∧
    (calculatePreventRisk scenarioB).prevent_10yr_ASCVD = none ∧
    (calculatePreventRisk scenarioB).prevent_30yr_ASCVD = none :=
  C4_chol_panel_nulls_cvd_ascvd.1 scenarioB (Or.inl rfl) (by decide) (by decide)
    (by decide) (by decide) (Or.inl (by decide))

set_option maxHeartbeats 1000000 in
/-- C5: every non-null percentage field of `calculatePreventRisk` is of the
logistic form `pct x = 100 * exp x / (1 + exp x)` and therefore lies strictly
between 0 and 100 (hence in [0,100]) in exact real arithmetic. -/
theorem C5_percentages_in_range (p : PreventInputs) :
    (∀ v, (calculatePreventRisk p).prevent_10yr_CVD = some v → 0 < v ∧ v < 100) ∧
    (∀ v, (calculatePreventRisk p).prevent_30yr_CVD = some v → 0 < v ∧ v < 100) ∧
    (∀ v, (calculatePreventRisk p).prevent_10yr_ASCVD = some v → 0 < v ∧ v < 100) ∧
    (∀ v, (calculatePreventRisk p).prevent_30yr_ASCVD = some v → 0 < v ∧ v < 100) ∧
    (∀ v, (calculatePreventRisk p).prevent_10yr_HF = some v → 0 < v ∧ v < 100) ∧
    (∀ v, (calculatePreventRisk p).prevent_30yr_HF = some v → 0 < v ∧ v < 100) := by
  unfold calculatePreventRisk
  by_cases h : hasOptionalVars p
  · rw [if_pos h]
    refine ⟨?_, ?_, ?_, ?_, ?_, ?_⟩ <;> intro v hv
    · rw [preventFull_10yr_CVD] at hv
      exact ite_none_bound _ _ _ hv
    · rw [preventFull_30yr_CVD] at hv
      exact ite_none_bound _ _ _ hv
    · rw [preventFull_10yr_ASCVD] at hv
      exact ite_none_bound _ _ _ hv
    · rw [preventFull_30yr_ASCVD] at hv
      exact ite_none_bound _ _ _ hv
    · rw [preventFull_10yr_HF] at hv
      exact ite_none_bound _ _ _ hv
    · rw [preventFull_30yr_HF] at hv
      exact ite_none_bound _ _ _ hv
  · rw [if_neg h]
    refine ⟨?_, ?_, ?_, ?_, ?_, ?_⟩ <;> intro v hv
    · rw [preventBase_10yr_CVD] at hv
      exact ite_none_bound _ _ _ hv
    · rw [preventBase_30yr_CVD] at hv
      exact ite_none_bound _ _ _ hv
    · rw [preventBase_10yr_ASCVD] at hv
      exact ite_none_bound _ _ _ hv
    · rw [preventBase_30yr_ASCVD] at hv
      exact ite_none_bound _ _ _ hv
    · rw [preventBase_10yr_HF] at hv
      exact ite_none_bound _ _ _ hv
    · rw [preventBase_30yr_HF] at hv
      exact ite_none_bound _ _ _ hv

/-- Witness for C5: the 10-year HF percentage of Scenario A is non-null and
strictly between 0 and 100. -/
theorem C5_percentages_in_range_witness :
    0 < pct (baseLogor_10yr_HF scenarioA) ∧ pct (baseLogor_10yr_HF scenarioA) < 100 :=
  (C5_percentages_in_range scenarioA).2.2.2.2.1 (pct (baseLogor_10yr_HF scenarioA)) (by
    unfold calculatePreventRisk
    rw [if_neg (by decide), preventBase_10yr_HF,
      if_neg (by norm_num [scenarioA, sexInvalid, ageInvalid, bmiInvalid,
        egfrInvalid, sbpInvalid])])

/-- C6: the UACR adjustment helper returns its argument unchanged at or above
0.1, clamps values in [0, 0.1) up to 0.1, and returns negative values
unchanged. -/
theorem C6_adjust_uacr (u : ℝ) :
    (0.1 ≤ u → adjust u = u) ∧
    (0 ≤ u ∧ u < 0.1 → adjust u = 0.1) ∧
    (u < 0 → adjust u = u) := by
  unfold adjust
  refine ⟨fun h => if_pos h, fun h => ?_, fun h => ?_⟩
  · rw [if_neg (not_le.mpr h.2), if_pos (show u ≥ 0 ∧ u < 0.1 from ⟨h.1, h.2⟩)]
  · rw [if_neg (not_le.mpr (show u < 0.1 by linarith)),
      if_neg (show ¬ (u ≥ 0 ∧ u < 0.1) from fun hc => absurd h (not_lt.mpr hc.1))]

/-- Witness for C6: `adjust 0.05 = 0.1`, `adjust 0.1 = 0.1`, `adjust 5 = 5`. -/
theorem C6_adjust_uacr_witness :
    adjust 0.05 = 0.1 ∧ adjust 0.1 = 0.1 ∧ adjust 5 = 5 :=
  ⟨(C6_adjust_uacr 0.05).2.1 ⟨by norm_num, by norm_num⟩,
   (C6_adjust_uacr 0.1).1 (by norm_num),
   (C6_adjust_uacr 5).1 (by norm_num)⟩

set_option maxHeartbeats 1000000 in
/-- C9: for every input with valid sex and age in [30,59], the 10-year and
30-year fields of the same endpoint are null together: every nullification
rule hits both horizons of an endpoint; only the age > 59 gate (excluded here)
decouples them. -/
theorem C9_horizon_coupling (p : PreventInputs)
    (hsex : p.sex = 0 ∨ p.sex = 1) (_h30 : 30 ≤ p.age) (h59 : p.age ≤ 59) :
    ((calculatePreventRisk p).prevent_10yr_CVD = none ↔
      (calculatePreventRisk p).prevent_30yr_CVD = none) ∧
    ((calculatePreventRisk p).prevent_10yr_ASCVD = none ↔
      (calculatePreventRisk p).prevent_30yr_ASCVD = none) ∧
    ((calculatePreventRisk p).prevent_10yr_HF = none ↔
      (calculatePreventRisk p).prevent_30yr_HF = none) := by
  unfold calculatePreventRisk
  by_cases h : hasOptionalVars p
  · rw [if_pos h]
    refine ⟨?_, ?_, ?_⟩
    · rw [preventFull_10yr_CVD, preventFull_30yr_CVD, ite_none_eq_none,
        ite_none_eq_none]
      tauto
    · rw [preventFull_10yr_ASCVD, preventFull_30yr_ASCVD, ite_none_eq_none,
        ite_none_eq_none]
      tauto
    · rw [preventFull_10yr_HF, preventFull_30yr_HF, ite_none_eq_none,
        ite_none_eq_none]
      tauto
  · rw [if_neg h]
    refine ⟨?_, ?_, ?_⟩
    · rw [preventBase_10yr_CVD, preventBase_30yr_CVD, ite_none_eq_none,
        ite_none_eq_none]
      tauto
    · rw [preventBase_10yr_ASCVD, preventBase_30yr_ASCVD, ite_none_eq_none,
        ite_none_eq_none]
      tauto
    · rw [preventBase_10yr_HF, preventBase_30yr_HF, ite_none_eq_none,
        ite_none_eq_none]
      tauto

/-- Witness for C9: at Scenario A (age 45), the three couplings hold. -/
theorem C9_horizon_coupling_witness :
    ((calculatePreventRisk scenarioA).prevent_10yr_CVD = none ↔
      (calculatePreventRisk scenarioA).prevent_30yr_CVD = none) ∧
    ((calculatePreventRisk scenarioA).prevent_10yr_ASCVD = none ↔
      (calculatePreventRisk scenarioA).prevent_30yr_ASCVD = none) ∧
    ((calculatePreventRisk scenarioA).prevent_10yr_HF = none ↔
      (calculatePreventRisk scenarioA).prevent_30yr_HF = none) :=
  C9_horizon_coupling scenarioA (Or.inl rfl) (by decide) (by decide)

set_option maxHeartbeats 1000000 in
/-- C10: the two HF fields of `calculatePreventRisk` are identical for any two
inputs that differ only in tc, hdl, and statin: the HF formulas and HF
nullification rules never read the cholesterol panel. -/
theorem C10_hf_ignores_chol_panel (p : PreventInputs) (tc' hdl' statin' : Option ℚ) :
    (calculatePreventRisk
        { p with tc := tc', hdl := hdl', statin := statin' }).prevent_10yr_HF =
      (calculatePreventRisk p).prevent_10yr_HF ∧
    (calculatePreventRisk
        { p with tc := tc', hdl := hdl', statin := statin' }).prevent_30yr_HF =
      (calculatePreventRisk p).prevent_30yr_HF := by
  obtain ⟨sex, age, tc, hdl, sbp, dm, smoking, bmi, egfr, bptreat, statin,
    uacr, hba1c, sdi⟩ := p
  unfold calculatePreventRisk
  simp only [hasOptionalVars]
  by_cases h : uacr ≠ none ∨ hba1c ≠ none ∨ sdi ≠ none
  · rw [if_pos h, if_pos h]
    constructor
    · rw [preventFull_10yr_HF, preventFull_10yr_HF]
      rfl
    · rw [preventFull_30yr_HF, preventFull_30yr_HF]
      rfl
  · rw [if_neg h, if_neg h]
    constructor
    · rw [preventBase_10yr_HF, preventBase_10yr_HF]
      rfl
    · rw [preventBase_30yr_HF, preventBase_30yr_HF]
      rfl

end Prevent
